import Mathlib

/-!
Verification of the feature-engineering and iterative forecasting engine of
`src/predictive_model.py` (class `PredictiveModel`).

Shallow embedding conventions:
* Dates are modelled as natural-number day indices (days since 1970-01-01), so
  "the next calendar day" is `d + 1`.  The pandas calendar accessors
  `dt.dayofweek / dt.day / dt.month / dt.quarter` are embedded through an
  explicit Gregorian civil-date decomposition (`civilOfDay`), so calendar
  features are genuine functions of the day index.
* Float values are modelled as rationals (`ℚ`).
* The floating-point square root used by pandas `rolling(7).std()` is
  irrational in general, so all model-level definitions are parametric in a
  function `sq : ℚ → ℚ` standing for `sqrt`; it is applied to the ddof=1
  rolling variance exactly where the source applies `std`.  No theorem below
  depends on the values `sq` produces.
* The ordinary-least-squares solver inside `sklearn.linear_model
  .LinearRegression.fit` is external library code; `trainPM` is parametric in
  the fitting function `fitF` (from the training design matrix and targets to
  coefficients and intercept).  No claim below depends on the fitted values.
* Python exceptions (`ValueError`) are modelled with `Except PMErr`.
-/

/-- Gregorian civil date `(year, month, day)` of a day index counted from
1970-01-01 (Howard Hinnant's `civil_from_days` algorithm, specialised to
nonnegative day indices). -/
def civilOfDay (d : Nat) : Nat × Nat × Nat :=
  let z := d + 719468
  let era := z / 146097
  let doe := z % 146097
  let yoe := (doe - doe / 1460 + doe / 36524 - doe / 146096) / 365
  let y := yoe + era * 400
  let doy := doe - (365 * yoe + yoe / 4 - yoe / 100)
  let mp := (5 * doy + 2) / 153
  let day := doy - (153 * mp + 2) / 5 + 1
  let month := if mp < 10 then mp + 3 else mp - 9
  let year := if month ≤ 2 then y + 1 else y
  (year, month, day)

/-- pandas `dt.dayofweek` (Monday = 0) of a day index; 1970-01-01 was a
Thursday (= 3). -/
def dayOfWeek (d : Nat) : Nat := (d + 3) % 7

/-- pandas `dt.day` (day of month, 1-31). -/
def dayOfMonth (d : Nat) : Nat := (civilOfDay d).2.2

/-- pandas `dt.month` (1-12). -/
def monthOf (d : Nat) : Nat := (civilOfDay d).2.1

/-- Quarter of a day index.  The source computes this as
`(month - 1) // 3 + 1` in `forecast` (line 172); pandas `dt.quarter` used in
`prepare_features` (line 50) equals the same formula. -/
def quarterOf (d : Nat) : Nat := (monthOf d - 1) / 3 + 1

/-- One row of the input DataFrame: its `date` cell and its target-column
cell (the `target_column` the caller selected, e.g. `sales`).  Other
covariate columns never influence the engine and are omitted. -/
structure Obs where
  date : Nat
  target : ℚ
deriving DecidableEq, Repr

/-- The target column of the DataFrame, `df[target_column]`. -/
def targets (df : List Obs) : List ℚ := df.map (·.target)

/-- `df[target_column].shift(k)` read at position `t`: defined (non-NaN)
exactly when `k ≤ t`, in which case it is the value at position `t - k`.
The shift is positional, not calendar-based. -/
def lagOpt (xs : List ℚ) (k t : Nat) : Option ℚ :=
  if k ≤ t then xs[t - k]? else none

/-- The trailing 7-element window ending at position `t` used by
`rolling(window=7)`: defined exactly when `6 ≤ t`. -/
def window7 (xs : List ℚ) (t : Nat) : Option (List ℚ) :=
  if 6 ≤ t then some ((xs.drop (t - 6)).take 7) else none

/-- Arithmetic mean of a window (pandas `rolling(...).mean()`). -/
def meanQ (w : List ℚ) : ℚ := w.sum / (w.length : ℚ)

/-- The ddof=1 variance of a 7-element window in sum-of-squares form: this is
the quantity whose square root pandas `rolling(window=7).std()` returns
(pandas' documented default `ddof=1`). -/
def rollingVar7 (w : List ℚ) : ℚ :=
  ((w.map fun x => x * x).sum - w.sum * w.sum / 7) / 6

/-- The feature columns of one prepared row, in the fixed order
`feature_columns` of the source (lines 64-68). -/
structure FeatureRow where
  day_of_week : ℚ
  day_of_month : ℚ
  month : ℚ
  quarter : ℚ
  lag_1 : ℚ
  lag_7 : ℚ
  lag_14 : ℚ
  rolling_mean_7 : ℚ
  rolling_std_7 : ℚ
deriving DecidableEq, Repr

/-- `feature_columns` of the source; every one of these columns is created by
`prepare_features`, so the `available_features` filter retains all nine. -/
def featureNames : List String :=
  ["day_of_week", "day_of_month", "month", "quarter",
   "lag_1", "lag_7", "lag_14", "rolling_mean_7", "rolling_std_7"]

def defaultObs : Obs := { date := 0, target := 0 }

/-- The row of the engineered DataFrame at position `t` before `dropna`:
`none` when any lag or rolling cell is NaN (which `dropna` then removes),
otherwise the feature cells together with the target cell `y[t]`. -/
def mkRowOpt (sq : ℚ → ℚ) (df : List Obs) (t : Nat) : Option (FeatureRow × ℚ) :=
  match df[t]? with
  | none => none
  | some ob =>
    match lagOpt (targets df) 1 t, lagOpt (targets df) 7 t,
          lagOpt (targets df) 14 t, window7 (targets df) t with
    | some l1, some l7, some l14, some w =>
        some ({ day_of_week := (dayOfWeek ob.date : ℚ)
                day_of_month := (dayOfMonth ob.date : ℚ)
                month := (monthOf ob.date : ℚ)
                quarter := (quarterOf ob.date : ℚ)
                lag_1 := l1
                lag_7 := l7
                lag_14 := l14
                rolling_mean_7 := meanQ w
                rolling_std_7 := sq (rollingVar7 w) }, ob.target)
    | _, _, _, _ => none

/-- Closed form of the surviving row at position `t` (meaningful for
`14 ≤ t < df.length`). -/
def rowAt (sq : ℚ → ℚ) (df : List Obs) (t : Nat) : FeatureRow × ℚ :=
  let xs := targets df
  let ob := df.getD t defaultObs
  let w := (xs.drop (t - 6)).take 7
  ({ day_of_week := (dayOfWeek ob.date : ℚ)
     day_of_month := (dayOfMonth ob.date : ℚ)
     month := (monthOf ob.date : ℚ)
     quarter := (quarterOf ob.date : ℚ)
     lag_1 := xs.getD (t - 1) 0
     lag_7 := xs.getD (t - 7) 0
     lag_14 := xs.getD (t - 14) 0
     rolling_mean_7 := meanQ w
     rolling_std_7 := sq (rollingVar7 w) }, ob.target)

/-- `prepare_features` (source lines 29-77): engineer calendar, lag and
rolling columns for every row, then `dropna`.  Returns the `(X, y)` rows in
input order. -/
def prepareRows (sq : ℚ → ℚ) (df : List Obs) : List (FeatureRow × ℚ) :=
  (List.range df.length).filterMap (mkRowOpt sq df)

/-- `prepare_features` returning `(rows, available_features)`; the `y` column
is carried inside each row pair. -/
def prepare_features (sq : ℚ → ℚ) (df : List Obs) :
    List (FeatureRow × ℚ) × List String :=
  (prepareRows sq df, featureNames)

/-- The state of a fitted `sklearn.linear_model.LinearRegression` estimator.
`uid` models Python object identity: `__init__` allocates one estimator and
`fit` mutates that same object in place (sklearn `fit` returns `self`), so
training never changes `uid`. -/
structure LinReg where
  uid : Nat
  coef : List ℚ
  intercept : ℚ
deriving DecidableEq, Repr

/-- The mutable attributes of a `PredictiveModel` instance that the engine
reads: the owned estimator, the `is_trained` flag and the stored
`feature_names`.  (`model_metrics` is rebuilt from scratch by each `train`
call and is read by no claim, so it is omitted.) -/
structure PMState where
  model : LinReg
  is_trained : Bool
  feature_names : List String
deriving DecidableEq, Repr

/-- `PredictiveModel.__init__` (lines 22-27): a fresh, unfitted estimator
(modelled with empty coefficients) and `is_trained = False`. -/
def initPM : PMState :=
  { model := { uid := 0, coef := [], intercept := 0 }
    is_trained := false
    feature_names := [] }

/-- The typed failures the engine raises (`ValueError` in the source):
`notTrained` is "Model must be trained before forecasting" (line 144),
`noData` is "No data available for forecasting" (line 149), and
`insufficientData` is the `ValueError` sklearn's `train_test_split` raises
when a segment would be empty. -/
inductive PMErr where
  | notTrained
  | noData
  | insufficientData
deriving DecidableEq, Repr

/-- The feature vector of a row in `feature_columns` order, as fed to the
estimator. -/
def featVec (r : FeatureRow) : List ℚ :=
  [r.day_of_week, r.day_of_month, r.month, r.quarter,
   r.lag_1, r.lag_7, r.lag_14, r.rolling_mean_7, r.rolling_std_7]

/-- Dot product of coefficient and feature lists. -/
def dotQ : List ℚ → List ℚ → ℚ
  | a :: as, b :: bs => a * b + dotQ as bs
  | _, _ => 0

/-- `LinearRegression.predict` on a single row: `X @ coef_ + intercept_`. -/
def predictLR (m : LinReg) (r : FeatureRow) : ℚ :=
  dotQ m.coef (featVec r) + m.intercept

/-- One emitted forecast record (source lines 177-183):
`forecast_period = i + 1`, `confidence_interval_lower = prediction * 0.9`,
`confidence_interval_upper = prediction * 1.1`. -/
structure ForecastPoint where
  date : Nat
  predicted_value : ℚ
  forecast_period : Nat
  lower_bound : ℚ
  upper_bound : ℚ
deriving DecidableEq, Repr

def defaultFP : ForecastPoint :=
  { date := 0, predicted_value := 0, forecast_period := 0
    lower_bound := 0, upper_bound := 0 }

/-- Lines 169-172: overwrite the four calendar features of the working
vector from the forecast date. -/
def refreshDates (r : FeatureRow) (d : Nat) : FeatureRow :=
  { r with
    day_of_week := (dayOfWeek d : ℚ)
    day_of_month := (dayOfMonth d : ℚ)
    month := (monthOf d : ℚ)
    quarter := (quarterOf d : ℚ) }

/-- The loop state of `forecast`: the accumulated `forecasts` list and the
working feature vector `current_features`. -/
structure LoopSt where
  forecasts : List ForecastPoint
  cur : FeatureRow
deriving DecidableEq, Repr

/-- One iteration `i` of the forecast loop (source lines 166-189):
refresh calendar features from `future_dates[i] = last_date + 1 + i`,
predict, append the forecast record, then overwrite `lag_1` — with the true
last observed target when `i = 0`, and with `forecasts[-2]` (the record at
position `length - 2` of the just-extended list) when `i > 0`. -/
def stepForecast (m : LinReg) (lastTarget : ℚ) (lastDate : Nat) (i : Nat)
    (s : LoopSt) : LoopSt :=
  let fdate := lastDate + 1 + i
  let cur1 := refreshDates s.cur fdate
  let pred := predictLR m cur1
  let fs := s.forecasts ++
    [{ date := fdate, predicted_value := pred, forecast_period := i + 1
       lower_bound := pred * (9 / 10), upper_bound := pred * (11 / 10) }]
  let cur2 :=
    if i = 0 then { cur1 with lag_1 := lastTarget }
    else { cur1 with
           lag_1 := ((fs[fs.length - 2]?).map (·.predicted_value)).getD 0 }
  { forecasts := fs, cur := cur2 }

/-- The forecast loop run for the first `k` iterations, seeded with the
last prepared feature row `c` (`current_features = X_last.iloc[-1:]`). -/
def loopN (m : LinReg) (lastTarget : ℚ) (lastDate : Nat) (c : FeatureRow) :
    Nat → LoopSt
  | 0 => { forecasts := [], cur := c }
  | k + 1 => stepForecast m lastTarget lastDate k (loopN m lastTarget lastDate c k)

/-- `df['date'].max()` (line 152). -/
def maxDate (df : List Obs) : Nat := (df.map (·.date)).foldl max 0

/-- `PredictiveModel.forecast` (lines 131-194): fail with `notTrained` when
`is_trained` is unset; prepare features and fail with `noData` when no row
survived `dropna`; otherwise run the iterative loop for `periods` steps from
the last prepared row and the day after the maximum observed date. -/
def forecastPM (sq : ℚ → ℚ) (st : PMState) (df : List Obs) (periods : Nat) :
    Except PMErr (List ForecastPoint) :=
  if st.is_trained = false then .error .notTrained
  else if ((prepare_features sq df).1).length = 0 then .error .noData
  else
    .ok (loopN st.model ((targets df).getLastD 0) (maxDate df)
      (((prepare_features sq df).1.getLastD (rowAt sq df 0)).1) periods).forecasts

/-- Ceiling of a nonnegative rational, as a natural number; sklearn sizes the
test segment as `ceil(test_size * n_samples)` when `test_size` is a float. -/
def natCeilQ (q : ℚ) : Nat := ((q.num + (q.den : Int) - 1) / (q.den : Int)).toNat

/-- `sklearn.model_selection.train_test_split(..., shuffle=False)`:
`n_test = ceil(test_size * n)`, `n_train = n - n_test`; with no shuffling the
training segment is the leading prefix and the test segment the trailing
suffix; raises when either segment would be empty. -/
def trainTestSplit (rows : List α) (testSize : ℚ) :
    Except PMErr (List α × List α) :=
  let n := rows.length
  let nTest := natCeilQ (testSize * n)
  let nTrain := n - nTest
  if nTrain = 0 ∨ nTest = 0 then .error .insufficientData
  else .ok (rows.take nTrain, rows.drop nTrain)

/-- `PredictiveModel.train` (lines 79-129): prepare features, split
chronologically, fit the owned estimator in place (`self.model.fit`), set
`is_trained` and `feature_names`.  `fitF` abstracts sklearn's OLS solver.
When the split raises, the exception propagates and the state is unchanged
(the `except` branch re-raises). -/
def trainPM (fitF : List FeatureRow → List ℚ → List ℚ × ℚ) (sq : ℚ → ℚ)
    (st : PMState) (df : List Obs) (testSize : ℚ) :
    PMState × Except PMErr Unit :=
  let rows := (prepare_features sq df).1
  match trainTestSplit rows testSize with
  | .error e => (st, .error e)
  | .ok (tr, _te) =>
      let fitted := fitF (tr.map (·.1)) (tr.map (·.2))
      ({ model := { uid := st.model.uid, coef := fitted.1, intercept := fitted.2 }
         is_trained := true
         feature_names := (prepare_features sq df).2 }, .ok ())

/-- Sample (ddof = 1) variance of a window, written as the spec writes it:
mean of squared deviations with an `n - 1` denominator. -/
def sampleVarSpec (w : List ℚ) : ℚ :=
  ((w.map fun x => (x - meanQ w) ^ 2).sum) / ((w.length : ℚ) - 1)

/-- Population (ddof = 0) variance of a window. -/
def popVarSpec (w : List ℚ) : ℚ :=
  ((w.map fun x => (x - meanQ w) ^ 2).sum) / (w.length : ℚ)

/-- The working feature vector used by the prediction of forecast step `j`
(0-indexed): the loop state after `j` completed iterations, with its calendar
features refreshed to the date of step `j`. -/
def usedVec (m : LinReg) (lastTarget : ℚ) (lastDate : Nat) (c : FeatureRow)
    (j : Nat) : FeatureRow :=
  refreshDates (loopN m lastTarget lastDate c j).cur (lastDate + 1 + j)

/-- The forecast record emitted at step `j`. -/
def pointAt (m : LinReg) (lastTarget : ℚ) (lastDate : Nat) (c : FeatureRow)
    (j : Nat) : ForecastPoint :=
  let pred := predictLR m (usedVec m lastTarget lastDate c j)
  { date := lastDate + 1 + j, predicted_value := pred, forecast_period := j + 1
    lower_bound := pred * (9 / 10), upper_bound := pred * (11 / 10) }

/-- A constant daily series: `n` gap-free observations, one per day from day
index 0, all with target value `v`. -/
def mkConstObs (n : Nat) (v : ℚ) : List Obs :=
  (List.range n).map fun i => { date := i, target := v }

/-- A concrete stand-in for the abstracted square root (no theorem depends
on its values). -/
def sq0 : ℚ → ℚ := fun _ => 0

def df20 : List Obs := mkConstObs 20 10

def df14 : List Obs := mkConstObs 14 10

def df15 : List Obs := mkConstObs 15 10

def dfA : List Obs := mkConstObs 20 1

def dfB : List Obs := mkConstObs 21 1

/-- A fitted estimator with nine zero coefficients and intercept 5. -/
def m5 : LinReg := { uid := 0, coef := [0, 0, 0, 0, 0, 0, 0, 0, 0], intercept := 5 }

/-- A fitted estimator with nine zero coefficients and intercept `-5`: it
predicts a negative value on every input (reachable in the source by
training on a series trending into negative values). -/
def mNeg : LinReg := { uid := 0, coef := [0, 0, 0, 0, 0, 0, 0, 0, 0], intercept := -5 }

def st5 : PMState :=
  { model := m5, is_trained := true, feature_names := featureNames }

def stNeg : PMState :=
  { model := mNeg, is_trained := true, feature_names := featureNames }

/-- A concrete instantiation of the abstract OLS solver whose coefficient
vector records the number of training rows. -/
def fitLen : List FeatureRow → List ℚ → List ℚ × ℚ :=
  fun X _y => ([(X.length : ℚ)], 0)

/-- The all-zeros feature row, used as a concrete seed vector. -/
def c0 : FeatureRow :=
  { day_of_week := 0, day_of_month := 0, month := 0, quarter := 0
    lag_1 := 0, lag_7 := 0, lag_14 := 0, rolling_mean_7 := 0, rolling_std_7 := 0 }

theorem targets_length (df : List Obs) : (targets df).length = df.length :=
  List.length_map ..

theorem mkRowOpt_none_low (sq : ℚ → ℚ) (df : List Obs) (t : Nat) (h : t < 14) :
    mkRowOpt sq df t = none := by
  unfold mkRowOpt
  cases hdf : df[t]? with
  | none => rfl
  | some ob =>
    have h14 : lagOpt (targets df) 14 t = none := by
      unfold lagOpt; rw [if_neg (by omega)]
    rw [h14]
    cases lagOpt (targets df) 1 t <;> cases lagOpt (targets df) 7 t <;>
      cases window7 (targets df) t <;> rfl

theorem mkRowOpt_none_high (sq : ℚ → ℚ) (df : List Obs) (t : Nat)
    (h : df.length ≤ t) : mkRowOpt sq df t = none := by
  unfold mkRowOpt
  rw [List.getElem?_eq_none h]

theorem mkRowOpt_eq_rowAt (sq : ℚ → ℚ) (df : List Obs) (t : Nat)
    (h14 : 14 ≤ t) (ht : t < df.length) :
    mkRowOpt sq df t = some (rowAt sq df t) := by
  have hx : (targets df).length = df.length := targets_length df
  have hdf : df[t]? = some df[t] := List.getElem?_eq_getElem ht
  have hlag : ∀ k, k ≤ t →
      lagOpt (targets df) k t = some ((targets df).getD (t - k) 0) := by
    intro k hk
    have hlt : t - k < (targets df).length := by omega
    unfold lagOpt
    rw [if_pos hk, List.getElem?_eq_getElem hlt, List.getD_eq_getElem _ _ hlt]
  have hwin : window7 (targets df) t =
      some (((targets df).drop (t - 6)).take 7) := by
    unfold window7; rw [if_pos (by omega)]
  unfold mkRowOpt
  rw [hdf, hlag 1 (by omega), hlag 7 (by omega), hlag 14 (by omega), hwin]
  unfold rowAt
  rw [List.getD_eq_getElem df defaultObs ht]

theorem filterMap_mkRowOpt_eq (sq : ℚ → ℚ) (df : List Obs) :
    ∀ m, m ≤ df.length →
      (List.range m).filterMap (mkRowOpt sq df) =
        (List.range (m - 14)).map fun j => rowAt sq df (j + 14) := by
  intro m
  induction m with
  | zero => intro _; rfl
  | succ k ih =>
    intro hk
    rw [List.range_succ, List.filterMap_append, ih (by omega)]
    by_cases h14 : 14 ≤ k
    · rw [show k + 1 - 14 = (k - 14) + 1 by omega, List.range_succ, List.map_append]
      simp [mkRowOpt_eq_rowAt sq df k h14 (by omega), show k - 14 + 14 = k by omega]
    · rw [show k + 1 - 14 = k - 14 by omega]
      simp [mkRowOpt_none_low sq df k (by omega)]

theorem prepareRows_eq (sq : ℚ → ℚ) (df : List Obs) :
    prepareRows sq df =
      (List.range (df.length - 14)).map fun j => rowAt sq df (j + 14) :=
  filterMap_mkRowOpt_eq sq df df.length le_rfl

theorem prepareRows_length (sq : ℚ → ℚ) (df : List Obs) :
    (prepareRows sq df).length = df.length - 14 := by
  rw [prepareRows_eq]; simp

theorem getLastD_range_map {α : Type} (f : Nat → α) (d : α) (k : Nat)
    (hk : 0 < k) : ((List.range k).map f).getLastD d = f (k - 1) := by
  cases k with
  | zero => omega
  | succ n => rw [List.range_succ, List.map_append]; simp

theorem prepareRows_getLastD (sq : ℚ → ℚ) (df : List Obs)
    (d : FeatureRow × ℚ) (h : 15 ≤ df.length) :
    (prepareRows sq df).getLastD d = rowAt sq df (df.length - 1) := by
  rw [prepareRows_eq, getLastD_range_map _ _ _ (by omega)]
  congr 1
  omega

theorem loopN_forecasts (m : LinReg) (lt : ℚ) (ld : Nat) (c : FeatureRow) :
    ∀ k, (loopN m lt ld c k).forecasts =
      (List.range k).map (pointAt m lt ld c) := by
  intro k
  induction k with
  | zero => rfl
  | succ n ih =>
    rw [List.range_succ, List.map_append]
    show (stepForecast m lt ld n (loopN m lt ld c n)).forecasts = _
    simp only [stepForecast]
    rw [ih]
    rfl

theorem loopN_length (m : LinReg) (lt : ℚ) (ld : Nat) (c : FeatureRow)
    (k : Nat) : (loopN m lt ld c k).forecasts.length = k := by
  rw [loopN_forecasts]; simp

theorem stepForecast_cur_frozen (m : LinReg) (lt : ℚ) (ld : Nat) (i : Nat)
    (s : LoopSt) :
    (stepForecast m lt ld i s).cur.lag_7 = s.cur.lag_7 ∧
      (stepForecast m lt ld i s).cur.lag_14 = s.cur.lag_14 ∧
      (stepForecast m lt ld i s).cur.rolling_mean_7 = s.cur.rolling_mean_7 ∧
      (stepForecast m lt ld i s).cur.rolling_std_7 = s.cur.rolling_std_7 := by
  by_cases h : i = 0 <;> simp [stepForecast, refreshDates, h]

theorem loopN_cur_frozen (m : LinReg) (lt : ℚ) (ld : Nat) (c : FeatureRow) :
    ∀ k, (loopN m lt ld c k).cur.lag_7 = c.lag_7 ∧
      (loopN m lt ld c k).cur.lag_14 = c.lag_14 ∧
      (loopN m lt ld c k).cur.rolling_mean_7 = c.rolling_mean_7 ∧
      (loopN m lt ld c k).cur.rolling_std_7 = c.rolling_std_7 := by
  intro k
  induction k with
  | zero => exact ⟨rfl, rfl, rfl, rfl⟩
  | succ n ih =>
    have hs := stepForecast_cur_frozen m lt ld n (loopN m lt ld c n)
    exact ⟨hs.1.trans ih.1, hs.2.1.trans ih.2.1,
      hs.2.2.1.trans ih.2.2.1, hs.2.2.2.trans ih.2.2.2⟩

theorem loopN_cur_lag1_one (m : LinReg) (lt : ℚ) (ld : Nat) (c : FeatureRow) :
    (loopN m lt ld c 1).cur.lag_1 = lt := by
  show (stepForecast m lt ld 0 (loopN m lt ld c 0)).cur.lag_1 = lt
  simp [stepForecast]

theorem loopN_cur_lag1_succ (m : LinReg) (lt : ℚ) (ld : Nat) (c : FeatureRow)
    (i : Nat) (hi : 1 ≤ i) :
    (loopN m lt ld c (i + 1)).cur.lag_1 =
      (pointAt m lt ld c (i - 1)).predicted_value := by
  show (stepForecast m lt ld i (loopN m lt ld c i)).cur.lag_1 = _
  have hne : ¬ (i = 0) := by omega
  simp only [stepForecast, if_neg hne]
  rw [loopN_forecasts]
  have hlen : ∀ p : ForecastPoint,
      ((List.range i).map (pointAt m lt ld c) ++ [p]).length = i + 1 := by
    intro p; simp
  rw [hlen]
  have hidx : i + 1 - 2 = i - 1 := by omega
  rw [hidx]
  rw [List.getElem?_append_left (by simp; omega)]
  rw [List.getElem?_map]
  rw [List.getElem?_range (by omega)]
  rfl

theorem forecastPM_eq_ok (sq : ℚ → ℚ) (st : PMState) (df : List Obs)
    (periods : Nat) (h1 : st.is_trained = true) (h2 : 15 ≤ df.length) :
    forecastPM sq st df periods =
      .ok ((List.range periods).map (pointAt st.model ((targets df).getLastD 0)
        (maxDate df) ((rowAt sq df (df.length - 1)).1))) := by
  have hlen : ((prepare_features sq df).1).length = df.length - 14 :=
    prepareRows_length sq df
  rw [forecastPM, h1]
  rw [if_neg (by simp)]
  rw [if_neg (by omega)]
  rw [show (prepare_features sq df).1 = prepareRows sq df from rfl,
    prepareRows_getLastD sq df _ h2, loopN_forecasts]

theorem forecastPM_ok_eq (sq : ℚ → ℚ) (st : PMState) (df : List Obs)
    (periods : Nat) (pts : List ForecastPoint)
    (h : forecastPM sq st df periods = .ok pts) :
    pts = (List.range periods).map (pointAt st.model ((targets df).getLastD 0)
      (maxDate df) ((rowAt sq df (df.length - 1)).1)) := by
  by_cases h1 : st.is_trained = false
  · rw [forecastPM, if_pos h1] at h; cases h
  · have h1' : st.is_trained = true := by
      revert h1; cases st.is_trained <;> simp
    by_cases h2 : 15 ≤ df.length
    · rw [forecastPM_eq_ok sq st df periods h1' h2] at h
      cases h; rfl
    · have hlen : ((prepare_features sq df).1).length = 0 := by
        have := prepareRows_length sq df
        show (prepareRows sq df).length = 0
        omega
      rw [forecastPM, h1'] at h
      rw [if_neg (by simp), if_pos hlen] at h
      cases h

theorem predictLR_zero_coef (u : Nat) (b : ℚ) (r : FeatureRow) :
    predictLR { uid := u, coef := [0, 0, 0, 0, 0, 0, 0, 0, 0], intercept := b }
      r = b := by
  simp [predictLR, dotQ, featVec]

theorem trainPM_uid (fitF : List FeatureRow → List ℚ → List ℚ × ℚ)
    (sq : ℚ → ℚ) (st : PMState) (df : List Obs) (ts : ℚ) :
    ((trainPM fitF sq st df ts).1).model.uid = st.model.uid := by
  rw [trainPM]
  split <;> rfl

theorem trainTestSplit_ok {α : Type} (rows : List α) (ts : ℚ)
    (tr te : List α) (h : trainTestSplit rows ts = .ok (tr, te)) :
    tr = rows.take (rows.length - natCeilQ (ts * rows.length)) ∧
      te = rows.drop (rows.length - natCeilQ (ts * rows.length)) ∧
      natCeilQ (ts * rows.length) ≠ 0 ∧
      rows.length - natCeilQ (ts * rows.length) ≠ 0 := by
  rw [trainTestSplit] at h
  split at h
  · cases h
  · rename_i hcond
    cases h
    exact ⟨rfl, rfl, fun hz => hcond (Or.inr hz), fun hz => hcond (Or.inl hz)⟩

/-- C1: in `forecast`, the `lag_1` entry of the working feature vector used
to predict step `i + 1` (steps 0-indexed) is the true last observed target
value after step `i = 0`, and the previous step's prediction after every
step `i > 0` — where "the previous step" relative to the just-completed
step `i` is step `i - 1`, whose emitted record is `forecasts[-2]` at the
moment line 189 runs (`pointAt ... (i - 1)` here, cf. `loopN_forecasts`).
Long lags are never substituted: `lag_7` and `lag_14` keep their seed
values in every working vector.  The first conjunct records that the value
predicted at step `j` is the model applied to exactly this working vector. -/
theorem claim_C1_lag_feedback (m : LinReg) (lt : ℚ) (ld : Nat)
    (c : FeatureRow) :
    (∀ j, (pointAt m lt ld c j).predicted_value =
      predictLR m (usedVec m lt ld c j)) ∧
    (usedVec m lt ld c 1).lag_1 = lt ∧
    (∀ i, 1 ≤ i → (usedVec m lt ld c (i + 1)).lag_1 =
      (pointAt m lt ld c (i - 1)).predicted_value) ∧
    (∀ j, (usedVec m lt ld c j).lag_7 = c.lag_7 ∧
      (usedVec m lt ld c j).lag_14 = c.lag_14) := by
  refine ⟨fun j => rfl, ?_, fun i hi => ?_, fun j => ?_⟩
  · show (loopN m lt ld c 1).cur.lag_1 = lt
    exact loopN_cur_lag1_one m lt ld c
  · show (loopN m lt ld c (i + 1)).cur.lag_1 = _
    exact loopN_cur_lag1_succ m lt ld c i hi
  · exact ⟨(loopN_cur_frozen m lt ld c j).1, (loopN_cur_frozen m lt ld c j).2.1⟩

/-- Witness for C1 at a concrete input: the vector used to predict step 2
carries the prediction of step 0 (the step previous to step 1, at whose end
line 189 last ran). -/
theorem claim_C1_witness :
    (usedVec m5 7 0 c0 2).lag_1 = (pointAt m5 7 0 c0 0).predicted_value :=
  (claim_C1_lag_feedback m5 7 0 c0).2.2.1 1 (by omega)

/-- C2: for every trained model whose prepared history is nonempty,
`forecast` succeeds and returns exactly `horizon` points; the `j`-th date is
`max observed date + 1 + j`, so the dates are strictly increasing
consecutive calendar days starting the day after the maximum observation
date. -/
theorem claim_C2_forecast_dates (sq : ℚ → ℚ) (st : PMState) (df : List Obs)
    (periods : Nat) (pts : List ForecastPoint)
    (h : forecastPM sq st df periods = .ok pts) :
    pts.length = periods ∧
    (∀ j, j < periods → (pts.getD j defaultFP).date = maxDate df + 1 + j) ∧
    (0 < periods → (pts.getD 0 defaultFP).date = maxDate df + 1) ∧
    (∀ j, j + 1 < periods →
      (pts.getD j defaultFP).date < (pts.getD (j + 1) defaultFP).date ∧
      (pts.getD (j + 1) defaultFP).date = (pts.getD j defaultFP).date + 1) := by
  rw [forecastPM_ok_eq sq st df periods pts h]
  have key : ∀ j, j < periods →
      (((List.range periods).map (pointAt st.model ((targets df).getLastD 0)
        (maxDate df) ((rowAt sq df (df.length - 1)).1))).getD j defaultFP).date =
      maxDate df + 1 + j := by
    intro j hj
    rw [List.getD_eq_getElem _ _ (by simp [hj])]
    simp [pointAt]
  refine ⟨by simp, fun j hj => key j hj, fun hp => ?_, fun j hj => ?_⟩
  · rw [key 0 hp]
  · rw [key j (by omega), key (j + 1) hj]
    omega

/-- Witness for C2: a trained state over 20 observations, horizon 3. -/
theorem claim_C2_witness :
    ∃ pts, forecastPM sq0 st5 df20 3 = Except.ok pts ∧ pts.length = 3 ∧
      (pts.getD 0 defaultFP).date = maxDate df20 + 1 := by
  have h := forecastPM_eq_ok sq0 st5 df20 3 rfl (by decide)
  have hc := claim_C2_forecast_dates sq0 st5 df20 3 _ h
  exact ⟨_, h, hc.1, hc.2.2.1 (by omega)⟩

/-- C4: across all forecast steps, `lag_7`, `lag_14`, `rolling_mean_7` and
`rolling_std_7` of the working feature vector keep their seed values: the
iteration overwrites only the four calendar features and `lag_1`.  Stated
both for the loop state after `k` steps and for the working vector used by
the step-`k` prediction. -/
theorem claim_C4_frozen_long_features (m : LinReg) (lt : ℚ) (ld : Nat)
    (c : FeatureRow) (k : Nat) :
    (usedVec m lt ld c k).lag_7 = c.lag_7 ∧
    (usedVec m lt ld c k).lag_14 = c.lag_14 ∧
    (usedVec m lt ld c k).rolling_mean_7 = c.rolling_mean_7 ∧
    (usedVec m lt ld c k).rolling_std_7 = c.rolling_std_7 ∧
    (loopN m lt ld c k).cur.lag_7 = c.lag_7 ∧
    (loopN m lt ld c k).cur.lag_14 = c.lag_14 ∧
    (loopN m lt ld c k).cur.rolling_mean_7 = c.rolling_mean_7 ∧
    (loopN m lt ld c k).cur.rolling_std_7 = c.rolling_std_7 := by
  have h := loopN_cur_frozen m lt ld c k
  exact ⟨h.1, h.2.1, h.2.2.1, h.2.2.2, h.1, h.2.1, h.2.2.1, h.2.2.2⟩

/-- C6 counterexample: on 14 observations (fewer than 15), `prepare_features`
returns an empty feature set — it does not fail.  The claim says `build`
"fails with InsufficientHistory rather than returning an empty result";
the code's `prepare_features` contains no raise at all (checked against its
whole body, lines 29-77), so the claim is false on the code. -/
theorem claim_C6_counterexample :
    prepare_features sq0 df14 = ([], featureNames) := by
  have hrows : prepareRows sq0 df14 = [] := by
    rw [prepareRows_eq, show df14.length - 14 = 0 by decide]
    rfl
  rw [prepare_features, hrows]

/-- C6 amended: on fewer than 15 observations `prepare_features` returns
zero rows without failing; the failure surfaces only in `forecast`
(line 148-149, "No data available for forecasting") once the model is
trained. -/
theorem claim_C6_empty_features (sq : ℚ → ℚ) (st : PMState) (df : List Obs)
    (periods : Nat) (hlen : df.length < 15) :
    (prepare_features sq df).1 = [] ∧
    (st.is_trained = true → forecastPM sq st df periods = .error .noData) := by
  have hrows : prepareRows sq df = [] := by
    rw [prepareRows_eq, show df.length - 14 = 0 by omega]
    rfl
  refine ⟨hrows, fun h1 => ?_⟩
  rw [forecastPM, h1, if_neg (by simp), if_pos]
  show (prepareRows sq df).length = 0
  rw [hrows]
  rfl

/-- Witness for the amended C6 on a concrete 14-observation input. -/
theorem claim_C6_witness :
    (prepare_features sq0 df14).1 = [] ∧
    (st5.is_trained = true → forecastPM sq0 st5 df14 9 = .error .noData) :=
  claim_C6_empty_features sq0 st5 df14 9 (by decide)

/-- C7: whenever `is_trained` is unset — in particular before any successful
`train` call, since only a successful `train` sets it — `forecast` fails
with the NotTrained error (line 143-144) and emits no ForecastPoints. -/
theorem claim_C7_not_trained (sq : ℚ → ℚ) (st : PMState) (df : List Obs)
    (periods : Nat) (h : st.is_trained = false) :
    forecastPM sq st df periods = .error .notTrained := by
  rw [forecastPM, h, if_pos rfl]

/-- Witness for C7: the freshly initialised model. -/
theorem claim_C7_witness :
    forecastPM sq0 initPM df20 7 = Except.error PMErr.notTrained :=
  claim_C7_not_trained sq0 initPM df20 7 rfl

/-- C3 amended: every emitted ForecastPoint has
`lower_bound = 0.9 * predicted_value` and
`upper_bound = 1.1 * predicted_value`; the ordering
`lower_bound ≤ predicted_value ≤ upper_bound` holds whenever the predicted
value is nonnegative (and only then — see the counterexample). -/
theorem claim_C3_bounds (sq : ℚ → ℚ) (st : PMState) (df : List Obs)
    (periods : Nat) (pts : List ForecastPoint) (pt : ForecastPoint)
    (h : forecastPM sq st df periods = .ok pts) (hpt : pt ∈ pts) :
    pt.lower_bound = (9 / 10) * pt.predicted_value ∧
    pt.upper_bound = (11 / 10) * pt.predicted_value ∧
    (0 ≤ pt.predicted_value →
      pt.lower_bound ≤ pt.predicted_value ∧
      pt.predicted_value ≤ pt.upper_bound) := by
  rw [forecastPM_ok_eq sq st df periods pts h] at hpt
  obtain ⟨j, hj, rfl⟩ := List.mem_map.mp hpt
  refine ⟨by simp only [pointAt]; ring, by simp only [pointAt]; ring,
    fun h0 => ?_⟩
  simp only [pointAt] at h0 ⊢
  constructor <;> nlinarith

/-- C3 counterexample: with a fitted model predicting `-5` (nine zero
coefficients, intercept `-5`), the emitted point has
`lower_bound = -4.5 > -5 = predicted_value`, so the claimed ordering
`lower_bound ≤ predicted_value ≤ upper_bound` is false on the code. -/
theorem claim_C3_counterexample :
    ∃ pts, forecastPM sq0 stNeg df20 1 = Except.ok pts ∧
      ∃ pt ∈ pts, ¬ (pt.lower_bound ≤ pt.predicted_value ∧
        pt.predicted_value ≤ pt.upper_bound) := by
  have h := forecastPM_eq_ok sq0 stNeg df20 1 rfl (by decide)
  refine ⟨_, h, pointAt stNeg.model ((targets df20).getLastD 0) (maxDate df20)
    ((rowAt sq0 df20 (df20.length - 1)).1) 0,
    List.mem_map_of_mem _ (by decide), ?_⟩
  have hval : predictLR stNeg.model (usedVec stNeg.model
      ((targets df20).getLastD 0) (maxDate df20)
      ((rowAt sq0 df20 (df20.length - 1)).1) 0) = -5 :=
    predictLR_zero_coef 0 (-5) _
  intro hcon
  have h1 := hcon.1
  simp only [pointAt] at h1
  rw [hval] at h1
  norm_num at h1

/-- Witness for the amended C3 on a run with nonnegative predictions. -/
theorem claim_C3_witness :
    ∃ pts pt, forecastPM sq0 st5 df20 2 = Except.ok pts ∧ pt ∈ pts ∧
      pt.lower_bound = (9 / 10) * pt.predicted_value ∧
      pt.upper_bound = (11 / 10) * pt.predicted_value := by
  have h := forecastPM_eq_ok sq0 st5 df20 2 rfl (by decide)
  have hpt : pointAt st5.model ((targets df20).getLastD 0) (maxDate df20)
      ((rowAt sq0 df20 (df20.length - 1)).1) 0 ∈
      (List.range 2).map (pointAt st5.model ((targets df20).getLastD 0)
        (maxDate df20) ((rowAt sq0 df20 (df20.length - 1)).1)) :=
    List.mem_map_of_mem _ (by decide)
  have hc := claim_C3_bounds sq0 st5 df20 2 _ _ h hpt
  exact ⟨_, _, h, hpt, hc.1, hc.2.1⟩

/-- C5: the split `train` hands to sklearn (`shuffle=False`, line 96-98)
keeps the prepared rows in input (chronological) order: the training
segment followed by the test segment is exactly the prepared row list, the
test segment is the trailing `ceil(test_fraction * n)` rows and the
training segment the leading remainder.  (`test_fraction` defaults
to 0.2.) -/
theorem claim_C5_chronological_split (sq : ℚ → ℚ) (df : List Obs) (ts : ℚ)
    (tr te : List (FeatureRow × ℚ))
    (h : trainTestSplit (prepare_features sq df).1 ts = .ok (tr, te)) :
    tr ++ te = (prepare_features sq df).1 ∧
    te.length = natCeilQ (ts * ((prepare_features sq df).1.length : ℚ)) ∧
    tr.length = (prepare_features sq df).1.length -
      natCeilQ (ts * ((prepare_features sq df).1.length : ℚ)) := by
  obtain ⟨htr, hte, hn0, hm0⟩ :=
    trainTestSplit_ok (prepare_features sq df).1 ts tr te h
  subst htr
  subst hte
  refine ⟨List.take_append_drop .., ?_, ?_⟩
  · rw [List.length_drop]
    omega
  · rw [List.length_take]
    omega

theorem natCeilQ_fifth_six : natCeilQ ((1 / 5 : ℚ) * ((6 : ℕ) : ℚ)) = 2 := by
  have h1 : ((1 / 5 : ℚ) * ((6 : ℕ) : ℚ)).num = 6 := by norm_num
  have h2 : ((1 / 5 : ℚ) * ((6 : ℕ) : ℚ)).den = 5 := by norm_num
  rw [natCeilQ, h1, h2]
  decide

theorem natCeilQ_fifth_seven : natCeilQ ((1 / 5 : ℚ) * ((7 : ℕ) : ℚ)) = 2 := by
  have h1 : ((1 / 5 : ℚ) * ((7 : ℕ) : ℚ)).num = 7 := by norm_num
  have h2 : ((1 / 5 : ℚ) * ((7 : ℕ) : ℚ)).den = 5 := by norm_num
  rw [natCeilQ, h1, h2]
  decide

theorem trainTestSplit_fifth (rows : List (FeatureRow × ℚ)) (n k : Nat)
    (hn : rows.length = n) (hceil : natCeilQ ((1 / 5 : ℚ) * (n : ℚ)) = k)
    (hk : k ≠ 0) (hnk : n - k ≠ 0) :
    trainTestSplit rows (1 / 5) =
      .ok (rows.take (n - k), rows.drop (n - k)) := by
  rw [trainTestSplit, hn, hceil, if_neg (by omega)]

theorem prepare_df20_length : (prepare_features sq0 df20).1.length = 6 := by
  show (prepareRows sq0 df20).length = 6
  rw [prepareRows_length]
  decide

/-- Witness for C5 on 20 concrete observations: 6 prepared rows split into
the first 4 (train) and the last 2 (test). -/
theorem claim_C5_witness :
    ∃ tr te,
      trainTestSplit (prepare_features sq0 df20).1 (1 / 5) =
        Except.ok (tr, te) ∧
      tr ++ te = (prepare_features sq0 df20).1 ∧ te.length = 2 := by
  have hsplit := trainTestSplit_fifth (prepare_features sq0 df20).1 6 2
    prepare_df20_length natCeilQ_fifth_six (by omega) (by omega)
  have hc := claim_C5_chronological_split sq0 df20 (1 / 5) _ _ hsplit
  refine ⟨_, _, hsplit, hc.1, ?_⟩
  rw [hc.2.1, prepare_df20_length, natCeilQ_fifth_six]

theorem trainPM_model_of_ok (fitF : List FeatureRow → List ℚ → List ℚ × ℚ)
    (sq : ℚ → ℚ) (st : PMState) (df : List Obs) (ts : ℚ)
    (tr te : List (FeatureRow × ℚ))
    (h : trainTestSplit (prepare_features sq df).1 ts = .ok (tr, te)) :
    (trainPM fitF sq st df ts).1 =
      { model := { uid := st.model.uid
                   coef := (fitF (tr.map (·.1)) (tr.map (·.2))).1
                   intercept := (fitF (tr.map (·.1)) (tr.map (·.2))).2 }
        is_trained := true
        feature_names := featureNames } := by
  rw [trainPM, h]
  rfl

theorem prepare_dfA_length : (prepare_features sq0 dfA).1.length = 6 := by
  show (prepareRows sq0 dfA).length = 6
  rw [prepareRows_length]
  decide

theorem prepare_dfB_length : (prepare_features sq0 dfB).1.length = 7 := by
  show (prepareRows sq0 dfB).length = 7
  rw [prepareRows_length]
  decide

/-- C8 counterexample: retraining does not produce a new fitted estimator.
Starting from `initPM`, training on `dfA` and then retraining on `dfB`
refits the very same `LinearRegression` object (`uid` unchanged — the
object allocated once in `__init__`, line 24, and mutated in place by
`self.model.fit`, line 101) while its fitted coefficients change, so the
coefficients produced by the first fit are overwritten rather than
preserved in a distinct older instance. -/
theorem claim_C8_counterexample :
    ((trainPM fitLen sq0 ((trainPM fitLen sq0 initPM dfA (1 / 5)).1)
        dfB (1 / 5)).1).model.uid =
      ((trainPM fitLen sq0 initPM dfA (1 / 5)).1).model.uid ∧
    ((trainPM fitLen sq0 ((trainPM fitLen sq0 initPM dfA (1 / 5)).1)
        dfB (1 / 5)).1).model.coef ≠
      ((trainPM fitLen sq0 initPM dfA (1 / 5)).1).model.coef := by
  have hsA := trainTestSplit_fifth (prepare_features sq0 dfA).1 6 2
    prepare_dfA_length natCeilQ_fifth_six (by omega) (by omega)
  have hsB := trainTestSplit_fifth (prepare_features sq0 dfB).1 7 2
    prepare_dfB_length natCeilQ_fifth_seven (by omega) (by omega)
  have h1 := trainPM_model_of_ok fitLen sq0 initPM dfA (1 / 5) _ _ hsA
  have h2 := trainPM_model_of_ok fitLen sq0
    ((trainPM fitLen sq0 initPM dfA (1 / 5)).1) dfB (1 / 5) _ _ hsB
  constructor
  · exact trainPM_uid fitLen sq0 _ dfB (1 / 5)
  · rw [h2, h1]
    simp only [fitLen, List.length_map, List.length_take,
      prepare_dfA_length, prepare_dfB_length]
    norm_num

/-- C8 amended: the `PredictiveModel` owns a single `LinearRegression`
instance allocated in `__init__`; every `train` call refits that same
instance in place (its identity is preserved by every call, successful or
not), overwriting the previously fitted coefficients instead of producing a
new fitted-model object and leaving the old one unchanged.  (The metrics
dict, by contrast, is rebuilt as a fresh object per call.) -/
theorem claim_C8_in_place_refit (fitF : List FeatureRow → List ℚ → List ℚ × ℚ)
    (sq : ℚ → ℚ) (st : PMState) (df : List Obs) (ts : ℚ) :
    ((trainPM fitF sq st df ts).1).model.uid = st.model.uid :=
  trainPM_uid fitF sq st df ts

/-- C9: the quantity under the square root of the `rolling_std_7` feature
(the variance pandas' `rolling(window=7).std()` uses, embedded as
`rollingVar7` and stored by `prepare_features` as
`rolling_std_7 = sq (rollingVar7 window)`) is the sample variance with
`ddof = 1` — mean squared deviation over `n - 1` — for every 7-element
window, and it is not the population (`ddof = 0`) variance: the two differ
on a concrete window.  Since the square root is strictly monotone on
nonnegative reals, the feature is the sample standard deviation, not the
population standard deviation. -/
theorem claim_C9_sample_std :
    (∀ w : List ℚ, w.length = 7 → rollingVar7 w = sampleVarSpec w) ∧
    (∃ w : List ℚ, w.length = 7 ∧ rollingVar7 w ≠ popVarSpec w) := by
  constructor
  · intro w hw
    rcases w with _ | ⟨a, _ | ⟨b, _ | ⟨c, _ | ⟨d, _ | ⟨e, _ | ⟨f, _ | ⟨g,
      _ | ⟨x, w⟩⟩⟩⟩⟩⟩⟩⟩ <;>
      simp only [List.length_cons, List.length_nil] at hw <;> try omega
    simp only [rollingVar7, sampleVarSpec, meanQ, List.map_cons, List.map_nil,
      List.sum_cons, List.sum_nil, List.length_cons, List.length_nil]
    norm_num
    ring
  · refine ⟨[0, 0, 0, 0, 0, 0, 7], by simp, ?_⟩
    simp only [rollingVar7, popVarSpec, meanQ, List.map_cons, List.map_nil,
      List.sum_cons, List.sum_nil, List.length_cons, List.length_nil]
    norm_num

/-- Witness for C9 applied to a concrete 7-element window. -/
theorem claim_C9_witness :
    rollingVar7 [1, 2, 3, 4, 5, 6, 7] = sampleVarSpec [1, 2, 3, 4, 5, 6, 7] :=
  claim_C9_sample_std.1 [1, 2, 3, 4, 5, 6, 7] rfl

/-- C10: for every input of `n ≥ 15` observations, `prepare_features` emits
exactly `n - 14` rows: the surviving rows are exactly those at positions
`14 .. n - 1` (in order), i.e. exactly the first 14 rows are dropped, with
`lag_14` the binding constraint.  (The lag/rolling columns are positional
shifts, so this holds whatever the dates are; a gap-free daily series is
the special case the claim asks about.) -/
theorem claim_C10_row_count (sq : ℚ → ℚ) (df : List Obs)
    (h : 15 ≤ df.length) :
    (prepare_features sq df).1.length = df.length - 14 ∧
    (prepare_features sq df).1 =
      (List.range (df.length - 14)).map fun j => rowAt sq df (j + 14) :=
  ⟨prepareRows_length sq df, prepareRows_eq sq df⟩

/-- Witness for C10 on a concrete gap-free 15-observation series. -/
theorem claim_C10_witness :
    (prepare_features sq0 df15).1.length = df15.length - 14 ∧
      df15.length - 14 = 1 :=
  ⟨(claim_C10_row_count sq0 df15 (by decide)).1, by decide⟩
